import Mathlib

/-!
Shallow embedding of the version algebra, installer catalog, installer
locator, archive extractor and install/uninstall orchestration of the
`matlab-runtime` repository (`src/matlab_runtime/utils.py` and
`src/matlab_runtime_installer/impl.py`), together with theorems settling
the frozen claims about those components.

Python exceptions are modelled with an explicit `PyExc` type and
`Except`-valued functions; Python strings are manipulated through
character-list helpers mirroring the `str` methods the source uses.
-/

namespace MatlabRuntime

/-- Python exceptions raised (or raisable) by the embedded code. -/
inductive PyExc where
  | typeError
  | valueError
  | indexError
  | keyError
  | stopIteration
  | assertionError
  | osError
  | unboundLocal
  | userInterruption (question : String)
  | versionNotFound (msg : String)
  | downloadError
  | fileNotFound (msg : String)
deriving DecidableEq

instance {ε α : Type} [DecidableEq ε] [DecidableEq α] :
    DecidableEq (Except ε α) := fun a b =>
  match a, b with
  | .ok x, .ok y =>
    if h : x = y then .isTrue (by rw [h]) else .isFalse (by simp [h])
  | .error x, .error y =>
    if h : x = y then .isTrue (by rw [h]) else .isFalse (by simp [h])
  | .ok _, .error _ => .isFalse (by simp)
  | .error _, .ok _ => .isFalse (by simp)

/-! ### Python `str` helpers (over `List Char`) -/

/-- `version[:1] == "R"` — true iff the first character is `R`. -/
def firstCharIsR (s : String) : Bool :=
  match s.toList with
  | 'R' :: _ => true
  | _ => false

/-- Helper for `pySplitDot`: split a character list on `'.'`. -/
def splitDotAux : List Char → List (List Char)
  | [] => [[]]
  | c :: cs =>
    if c == '.' then [] :: splitDotAux cs
    else
      match splitDotAux cs with
      | h :: t => (c :: h) :: t
      | [] => [[c]]

/-- Python `s.split(".")` (so `"".split(".") == [""]`). -/
def pySplitDot (s : String) : List String :=
  (splitDotAux s.toList).map (fun cs => String.mk cs)

/-- Parse a non-negative decimal string, as Python `int()` does on the
digit strings this code feeds it; `none` models `ValueError`. -/
def pyParseNat : List Char → Option Nat
  | [] => none
  | cs =>
    if cs.all (fun c => c.isDigit) then
      some (cs.foldl (fun acc c => acc * 10 + (c.toNat - 48)) 0)
    else none

/-- Python `int(s)` for the non-negative decimals used here. -/
def pyInt (s : String) : Option Nat := pyParseNat s.toList

/-- Python `s.strip()`: drop leading and trailing whitespace. -/
def pyStrip (s : String) : String :=
  String.mk (((s.toList.dropWhile Char.isWhitespace).reverse.dropWhile
    Char.isWhitespace).reverse)

/-- Python `s.lower()` for the ASCII strings used here. -/
def pyLower (s : String) : String := String.mk (s.toList.map Char.toLower)

/-- Python string comparison `a < b` (lexicographic on code points). -/
def charListLt : List Char → List Char → Bool
  | [], [] => false
  | [], _ :: _ => true
  | _ :: _, [] => false
  | a :: as, b :: bs =>
    if a.toNat < b.toNat then true
    else if b.toNat < a.toNat then false
    else charListLt as bs

/-- Python `a < b` on strings. -/
def strLt (a b : String) : Bool := charListLt a.toList b.toList

/-- Insert into a descending list (helper for `sortDesc`). -/
def insertDesc (x : String) : List String → List String
  | [] => [x]
  | y :: ys => if strLt y x then x :: y :: ys else y :: insertDesc x ys

/-- Python `sorted(l, reverse=True)` on strings. -/
def sortDesc (l : List String) : List String := l.foldr insertDesc []

/-- Python `s.endswith(t)`. -/
def strEndsWith (s t : String) : Bool := t.toList.isSuffixOf s.toList

/-- Basename of a URL path: the segment after the last `/` (models
`op.basename(parse.urlparse(url).path)` for the CDN URLs used here). -/
def urlBasename (url : String) : String :=
  String.mk ((url.toList.reverse.takeWhile (fun c => c != '/')).reverse)

/-- Python tuple comparison `a > b` on integer tuples (lexicographic,
shorter tuple is smaller when it is a proper head). -/
def pyTupleGt : List Nat → List Nat → Bool
  | [], _ => false
  | _ :: _, [] => true
  | a :: as, b :: bs =>
    if a > b then true
    else if a < b then false
    else pyTupleGt as bs

/-! ### Version algebra (`utils.py` lines 459–484, 543–587) -/

/-- `VERSION_TO_RELEASE` — the static dot-version → release table for
releases prior to R2023b, in the source's insertion order. -/
def VERSION_TO_RELEASE : List (String × String) :=
  [("9.14", "R2023a"),
   ("9.13", "R2022b"),
   ("9.12", "R2022a"),
   ("9.11", "R2021b"),
   ("9.10", "R2021a"),
   ("9.9", "R2020b"),
   ("9.8", "R2020a"),
   ("9.7", "R2019b"),
   ("9.6", "R2019a"),
   ("9.5", "R2018b"),
   ("9.4", "R2018a"),
   ("9.3", "R2017b"),
   ("9.2", "R2017a"),
   ("9.1", "R2016b"),
   ("9.0.1", "R2016a"),
   ("9.0", "R2015b"),
   ("8.5.1", "R2015aSP1"),
   ("8.5", "R2015a"),
   ("8.4", "R2014b"),
   ("8.3", "R2014a"),
   ("8.2", "R2013b"),
   ("8.1", "R2013a"),
   ("8.0", "R2012b"),
   ("7.17", "R2012a")]

/-- The 25-letter table `"abcdefghijklmnopqrstuvwxy"` used by both
conversion functions. -/
def LETTERS : List Char := "abcdefghijklmnopqrstuvwxy".toList

/-- `matlab_release` (utils.py lines 459–468) on a string argument:
convert a MATLAB dot-version to a release name.  Strings starting with
`R` are returned unchanged; table hits use the table; otherwise the
formula `"R20" + year + letters[int(minor) + 1]` is applied. -/
def matlab_release (version : String) : Except PyExc String :=
  if firstCharIsR version then .ok version
  else
    match VERSION_TO_RELEASE.find? (fun p => p.1 == version) with
    | some p => .ok p.2
    | none =>
      match pySplitDot version with
      | year :: rel :: _ =>
        match pyInt rel with
        | some n =>
          match LETTERS.get? (n + 1) with
          | some c => .ok ("R20" ++ year ++ String.mk [c])
          | none => .error .indexError
        | none => .error .valueError
      | _ => .error .valueError

/-- `matlab_version` (utils.py lines 471–484) on a string argument:
convert a MATLAB release name to a dot-version.  First scans the static
table for a key or value hit; non-`R` strings are then returned
unchanged; otherwise `version[3:5]` and `version[5]` are decoded via the
letter table (`index(letter) + 1`). -/
def matlab_version (version : String) : Except PyExc String :=
  match VERSION_TO_RELEASE.find? (fun p => version == p.1 || version == p.2) with
  | some p => .ok p.1
  | none =>
    if !(firstCharIsR version) then .ok version
    else
      let cs := version.toList
      let year := String.mk ((cs.drop 3).take 2)
      match cs.get? 5 with
      | none => .error .indexError
      | some letter =>
        match LETTERS.indexOf? letter with
        | none => .error .valueError
        | some i => .ok (year ++ "." ++ toString (i + 1))

/-! ### URL templates and the pre-seeded `INSTALLERS` catalog
(`utils.py` lines 612–705) -/

/-- `TEMPLATE2.format(release=…, update=…, arch=…, ext=…)` — the
"modern" URL template for releases at or above R2019a. -/
def TEMPLATE2 (release update arch ext : String) : String :=
  "https://ssd.mathworks.com/supportfiles/downloads/" ++ release ++
  "/Release/" ++ update ++ "/deployment_files/installer/complete/" ++ arch ++
  "/MATLAB_Runtime_" ++ release ++ "_Update_" ++ update ++ "_" ++ arch ++
  "." ++ ext

/-- `TEMPLATE1.format(release=…, arch=…, ext=…)` — the "legacy" URL
template for releases below R2019a. -/
def TEMPLATE1 (release arch ext : String) : String :=
  "https://ssd.mathworks.com/supportfiles/downloads/" ++ release ++
  "/deployment_files/" ++ release ++ "/installers/" ++ arch ++
  "/MCR_" ++ release ++ "_" ++ arch ++ "_installer." ++ ext

/-- `RELEASE_TO_UPDATE` — release → update-counter table for the modern
template, in the source's insertion order. -/
def RELEASE_TO_UPDATE : List (String × String) :=
  [("R2024b", "5"),
   ("R2024a", "7"),
   ("R2023b", "10"),
   ("R2023a", "7"),
   ("R2022b", "10"),
   ("R2022a", "8"),
   ("R2021b", "7"),
   ("R2021a", "8"),
   ("R2020b", "8"),
   ("R2020a", "8"),
   ("R2019b", "9"),
   ("R2019a", "9")]

/-- Entries added by a `for R, U in RELEASE_TO_UPDATE.items()` seeding
loop with the modern template. -/
def modernEntries (arch ext : String) : List (String × String) :=
  RELEASE_TO_UPDATE.map (fun p => (p.1, TEMPLATE2 p.1 p.2 arch ext))

/-- The release names `f"R20{Y}{letter}"` generated by a
`for Y in range(lo, hi): for letter in ("a", "b")` loop. -/
def legacyReleaseNames (lo hi : Nat) : List String :=
  ((List.range (hi - lo)).map (fun i => lo + i)).flatMap
    (fun y => ["a", "b"].map (fun l => "R20" ++ toString y ++ l))

/-- Entries added by a legacy-template seeding loop over
`legacyReleaseNames lo hi`. -/
def legacyEntries (arch ext : String) (lo hi : Nat) : List (String × String) :=
  (legacyReleaseNames lo hi).map (fun r => (r, TEMPLATE1 r arch ext))

/-- After the `glnxa64` legacy loop (utils.py lines 676–679) the loop
variable `R` is left holding the last generated release name; the
`glnx86` seeding line (line 683) reads this stale value. -/
def staleLoopR : String := (legacyReleaseNames 12 19).getLastD ""

/-- A catalog is the in-memory `INSTALLERS` dict: per architecture, an
association list release → URL. -/
abbrev Catalog := List (String × List (String × String))

/-- `INSTALLERS[arch]` (`none` models `KeyError`). -/
def catArch (cat : Catalog) (arch : String) : Option (List (String × String)) :=
  (cat.find? (fun p => p.1 == arch)).map (fun p => p.2)

/-- `INSTALLERS[arch].get(release)`. -/
def catLookup (cat : Catalog) (arch release : String) : Option String :=
  match catArch cat arch with
  | none => none
  | some entries => (entries.find? (fun p => p.1 == release)).map (fun p => p.2)

/-- `INSTALLERS[arch][release] = url` (the arch key is known to exist
when the source performs this assignment). -/
def catInsert (cat : Catalog) (arch release url : String) : Catalog :=
  cat.map (fun p => if p.1 == arch then (p.1, p.2 ++ [(release, url)]) else p)

/-- The `INSTALLERS` catalog as seeded at module import
(utils.py lines 612–705), including the `glnx86` line that instantiates
the legacy template with the stale loop variable `R` rather than the
key `"R2012a"`. -/
def INSTALLERS : Catalog :=
  [("win64", modernEntries "win64" "zip" ++ legacyEntries "win64" "exe" 12 19),
   ("win32", legacyEntries "win32" "exe" 12 16),
   ("glnxa64",
    modernEntries "glnxa64" "zip" ++ legacyEntries "glnxa64" "zip" 12 19),
   ("glnx86", [("R2012a", TEMPLATE1 staleLoopR "glnx86" "zip")]),
   ("maci64",
    modernEntries "maci64" "zip" ++ legacyEntries "maci64" "zip" 12 19),
   ("maca64",
    ["R2023b", "R2024a", "R2024b"].map (fun r =>
      (r, TEMPLATE2 r (((RELEASE_TO_UPDATE.find?
        (fun p => p.1 == r)).map (fun p => p.2)).getD "") "maca64" "zip")))]

/-! ### Installer locator (`utils.py` lines 520–535) -/

/-- One network / user-visible step taken by the embedded code. -/
inductive Effect where
  | probe (url : String)
  | download (url : String)
  | ask (question : String)
  | mkTmpDir
  | unzip (path : String)
  | clearQuarantine
  | runInstaller (path : String)
  | fsRemove (path : String)
  | runUninstaller (path : String)
  | logFail
deriving DecidableEq

/-- Network traffic: HEAD existence probes and GET downloads. -/
def isNetworkEff : Effect → Bool
  | .probe _ => true
  | .download _ => true
  | _ => false

/-- A `url_exists` HEAD probe. -/
def isProbeEff : Effect → Bool
  | .probe _ => true
  | _ => false

/-- Effects that mutate the filesystem (downloads write the fetched
file; the native installer and uninstaller write/remove trees). -/
def isMutationEff : Effect → Bool
  | .download _ => true
  | .mkTmpDir => true
  | .unzip _ => true
  | .clearQuarantine => true
  | .runInstaller _ => true
  | .fsRemove _ => true
  | .runUninstaller _ => true
  | _ => false

/-- The `for U in reversed(range(11))` probe loop: issue `url_exists`
for each candidate in order and stop at the first hit. -/
def probeAll (oracle : String → Bool) : List String → Option String × List Effect
  | [] => (none, [])
  | u :: rest =>
    if oracle u then (some u, [.probe u])
    else
      let r := probeAll oracle rest
      (r.1, .probe u :: r.2)

/-- The candidate URLs probed for a release/arch, in loop order:
`TEMPLATE2.format(update=U, release=…, arch=…, ext="zip")` for
`U in reversed(range(11))`. -/
def probeUrls (release arch : String) : List String :=
  (List.range 11).reverse.map (fun u => TEMPLATE2 release (toString u) arch "zip")

/-- `guess_installer(version, arch)` (utils.py lines 520–535), with the
`url_exists` network oracle and the current `INSTALLERS` state made
explicit.  Returns the result, the new catalog state and the trace of
probes issued. -/
def guess_installer (oracle : String → Bool) (cat : Catalog)
    (version arch : String) : Except PyExc String × Catalog × List Effect :=
  let errMsg := "No " ++ version ++ " installer found for Win" ++ arch
  match matlab_release version with
  | .error e => (.error e, cat, [])
  | .ok release =>
    match catArch cat arch with
    | none => (.error .keyError, cat, [])
    | some entries =>
      match entries.find? (fun p => p.1 == release) with
      | some p => (.ok p.2, cat, [])
      | none =>
        match probeAll oracle (probeUrls release arch) with
        | (some u, t) => (.ok u, catInsert cat arch release u, t)
        | (none, t) => (.error (.versionNotFound errMsg), cat, t)

/-- Spec-side helper: the prefix of a list up to and including the first
element satisfying `p` (the probes a stop-at-first-success loop issues). -/
def takeUpToHit (p : α → Bool) : List α → List α
  | [] => []
  | a :: t => if p a then [a] else a :: takeUpToHit p t

/-- Spec-side literal: the update counters 10 down to 0 in strictly
descending order. -/
def DESC_UPDATES : List Nat := [10, 9, 8, 7, 6, 5, 4, 3, 2, 1, 0]

/-! ### `askuser` (`utils.py` lines 41–51) -/

/-- `askuser(question, default, auto_answer, raise_if_no)` with the
interactive reply made explicit.  In the interactive branch the source
computes `yesno = (not reply) if default == "yes" else False`, turning
`yesno` into a `bool`; the next line then evaluates `yesno[:1]` unless
the `or` short-circuits, and subscripting a `bool` raises `TypeError`. -/
def askuser (question default : String) (autoAnswer : Bool) (reply : String)
    (raiseIfNo : Bool) : Except PyExc Bool :=
  if autoAnswer then
    let yesno := default == "yes"
    if !yesno && raiseIfNo then .error (.userInterruption question)
    else .ok yesno
  else
    let r := pyStrip reply
    let yesno := if default == "yes" then r == "" else false
    if yesno then .ok true
    else .error .typeError

/-! ### `download_bottle` digest selection (`utils.py` lines 139–181) -/

/-- `_HOMEBREW_DIGESTS["openssl"]["3.4.1"]["maca64"]`, in the source's
insertion order. -/
def digesters_maca64 : List (Nat × String) :=
  [(15, "b20c7d9b63e7b320cba173c11710dee9888c77175a841031d7a245bb37355b98"),
   (14, "cdc22c278167801e3876a4560eac469cfa7f86c6958537d84d21bda3caf6972c"),
   (13, "51383da8b5d48f24b1d7a7f218cce1e309b6e299ae2dc5cfce5d69ff90c6e629")]

/-- `_HOMEBREW_DIGESTS["openssl"]["3.4.1"]["maci64"]`, in the source's
insertion order. -/
def digesters_maci64 : List (Nat × String) :=
  [(15, "e8a8957f282b27371283b8c7a17e743c1c4e4e242ea7ee68bbe23f883da4948f"),
   (14, "36a85e5161befce49de6e03c5f710987bd5778a321151e011999e766249e6447"),
   (13, "523d64d10d1d44d6e39df3ced3539e2526357eab8573d2de41d4e116d7c629c8")]

/-- Python `min(digesters)` (minimum key of the dict). -/
def keyMin : List (Nat × String) → Option Nat
  | [] => none
  | p :: ps => some ((ps.map (fun q => q.1)).foldl Nat.min p.1)

/-- Python `max(digesters)` (maximum key of the dict). -/
def keyMax : List (Nat × String) → Option Nat
  | [] => none
  | p :: ps => some ((ps.map (fun q => q.1)).foldl Nat.max p.1)

/-- Dict lookup `digesters[k]` (`KeyError` when absent). -/
def digLookup (ds : List (Nat × String)) (k : Nat) : Except PyExc String :=
  match ds.find? (fun p => p.1 == k) with
  | some p => .ok p.2
  | none => .error .keyError

/-- The digest-selection logic of `download_bottle`
(utils.py lines 171–181): exact key, else `digesters[min(digesters)]`
when below the minimum, else `digesters[max(digesters)]` when above the
maximum, else `assert False`. -/
def selectDigest (ds : List (Nat × String)) (macver : Nat) :
    Except PyExc String :=
  match ds.find? (fun p => p.1 == macver) with
  | some p => .ok p.2
  | none =>
    match keyMin ds, keyMax ds with
    | some mn, some mx =>
      if macver < mn then digLookup ds mn
      else if macver > mx then digLookup ds mx
      else .error .assertionError
    | _, _ => .error .valueError

/-- Spec-side: the key of the nearest entry strictly below `v`
(the maximum key `< v`). -/
def bestBelow (ds : List (Nat × String)) (v : Nat) : Option (Nat × String) :=
  (ds.filter (fun p => p.1 < v)).foldl
    (fun acc p =>
      match acc with
      | none => some p
      | some q => if q.1 < p.1 then some p else some q) none

/-- Spec-side: the key of the nearest entry strictly above `v`
(the minimum key `> v`). -/
def bestAbove (ds : List (Nat × String)) (v : Nat) : Option (Nat × String) :=
  (ds.filter (fun p => v < p.1)).foldl
    (fun acc p =>
      match acc with
      | none => some p
      | some q => if p.1 < q.1 then some p else some q) none

/-- Spec-side digest choice, following the claim's words: the exact
entry when present, else the nearest entry below, else the nearest
entry above. -/
def nearestDigestSpec (ds : List (Nat × String)) (v : Nat) : Option String :=
  match ds.find? (fun p => p.1 == v) with
  | some p => some p.2
  | none =>
    match bestBelow ds v with
    | some p => some p.2
    | none => (bestAbove ds v).map (fun p => p.2)

/-! ### `ZipFileWithExecPerm` (`matlab_runtime/utils.py` lines 65–93) -/

/-- A filesystem entry: a regular file with content and permission
bits, or a symbolic link. -/
inductive FsEntry where
  | file (data : String) (mode : Nat)
  | symlink (target : String)
deriving DecidableEq

/-- A flat path → entry map (most recent binding first). -/
abbrev FS := List (String × FsEntry)

/-- Look up a path. -/
def fsGet (fs : FS) (p : String) : Option FsEntry :=
  (fs.find? (fun kv => kv.1 == p)).map (fun kv => kv.2)

/-- Remove a path. -/
def fsDel (fs : FS) (p : String) : FS := fs.filter (fun kv => kv.1 != p)

/-- Create or overwrite a path. -/
def fsSet (fs : FS) (p : String) (e : FsEntry) : FS := (p, e) :: fsDel fs p

/-- `shutil.move(src, dst)`. -/
def fsMove (fs : FS) (src dst : String) : FS :=
  match fsGet fs src with
  | some e => fsSet (fsDel fs src) dst e
  | none => fs

/-- `os.chmod(p, mode)` (no-op on a missing path or a symlink, which
the source never chmods). -/
def fsChmod (fs : FS) (p : String) (mode : Nat) : FS :=
  match fsGet fs p with
  | some (.file d _) => fsSet fs p (.file d mode)
  | _ => fs

/-- An archive member: stored name, raw bytes (for a symlink member the
bytes are the link target text), and the external-attribute word. -/
structure Member where
  name : String
  data : String
  externalAttr : Nat

/-- The platform facts the extractor consults: `platform.system()` and
`hasattr(os, "symlink")`. -/
structure Platform where
  system : String
  hasSymlink : Bool

/-- `stat.S_IFMT` mask. -/
def S_IFMT : Nat := 0xF000

/-- `stat.S_IFLNK`. -/
def S_IFLNK : Nat := 0xA000

/-- `stat.S_ISLNK(m)`. -/
def S_ISLNK (m : Nat) : Bool := m &&& S_IFMT == S_IFLNK

/-- `ZipFileWithExecPerm._extract_member`
(`matlab_runtime/utils.py` lines 67–93).  `symlinkOk` is the outcome of
the `os.symlink` attempt; its `OSError` is caught by the source, so the
member extraction itself never raises.  The base-class extraction
writes the member bytes as a regular file first; the symlink branch is
guarded by `platform.system() != "Windows"`, the link type bits and
`hasattr(os, "symlink")`, and on success returns early (skipping the
chmod); on `OSError` the backup regular file is moved back and the
non-zero attribute word is applied with `os.chmod`. -/
def extract_member (plat : Platform) (symlinkOk : Bool) (dest : String)
    (fs : FS) (m : Member) : FS :=
  let target := dest ++ "/" ++ m.name
  let fs0 := fsSet fs target (.file m.data 0)
  let attr := m.externalAttr >>> 16
  if plat.system != "Windows" && S_ISLNK attr && plat.hasSymlink then
    let link := m.data
    let fs1 := fsMove fs0 target (target ++ ".__backup__")
    if symlinkOk then fsSet fs1 target (.symlink link)
    else
      let fs2 := fsMove fs1 (target ++ ".__backup__") target
      if attr != 0 then fsChmod fs2 target attr else fs2
  else
    if attr != 0 then fsChmod fs0 target attr else fs0

/-- `extractall`: extract every member in stored order. -/
def extractAll (plat : Platform) (symlinkOk : Bool) (dest : String)
    (fs : FS) (ms : List Member) : FS :=
  ms.foldl (extract_member plat symlinkOk dest) fs

/-! ### Install/uninstall orchestration
(`matlab_runtime_installer/impl.py` lines 37–239, resolution from
`matlab_runtime/utils.py` lines 487–517) -/

/-- The license-sentinel file name. -/
def LICENSE : String := "matlabruntime_license_agreement.pdf"

/-- Stand-in name for the process-exclusive temporary directory. -/
def TMPDIR : String := "/tmp/installer"

/-- The ambient facts and oracles an install/uninstall run consults:
host architecture, current calendar year, the `url_exists` network
oracle, whether `prefix/x/matlabruntime_license_agreement.pdf` exists
before (`sentinel`) and after (`sentinelAfter`) the native installer
runs, `os.listdir(prefix)` (`none` when the prefix does not exist),
the `auto_answer` flag and the interactive replies, whether the
download and the unpacked installer binary materialise, and the macOS
version tuple. -/
structure World where
  arch : String
  baseDir : String
  year : Nat
  urlExists : String → Bool
  sentinel : String → Bool
  sentinelAfter : String → Bool
  dirListing : Option (List String)
  autoAnswer : Bool
  replyFor : String → String
  downloadOk : Bool
  installerPresent : Bool
  macver : List Nat

/-- `askuser` as invoked by the orchestrator: the reply is whatever the
modelled user types for that question. -/
def askW (w : World) (question default : String) (raiseIfNo : Bool) :
    Except PyExc Bool :=
  askuser question default w.autoAnswer (w.replyFor question) raiseIfNo

/-- The `"latest"` branch of `guess_release`
(utils.py lines 500–515): try `R{year}b` then `R{year}a` through
`guess_installer`, catching only `VersionNotFoundError`; if neither
resolves, fall back to the greatest release key already in the catalog
(`next(iter(...))` on an empty key list raises `StopIteration`). -/
def guessReleaseLatest (w : World) (cat : Catalog) :
    Except PyExc String × Catalog × List Effect :=
  let yb := "R" ++ toString w.year ++ "b"
  let ya := "R" ++ toString w.year ++ "a"
  match guess_installer w.urlExists cat yb w.arch with
  | (.ok _, cat1, t1) => (matlab_release yb, cat1, t1)
  | (.error (.versionNotFound _), cat1, t1) =>
    match guess_installer w.urlExists cat1 ya w.arch with
    | (.ok _, cat2, t2) => (matlab_release ya, cat2, t1 ++ t2)
    | (.error (.versionNotFound _), cat2, t2) =>
      match catArch cat2 w.arch with
      | none => (.error .keyError, cat2, t1 ++ t2)
      | some entries =>
        match (sortDesc (entries.map (fun p => p.1))).head? with
        | some v => (matlab_release v, cat2, t1 ++ t2)
        | none => (.error .stopIteration, cat2, t1 ++ t2)
    | (.error e, cat2, t2) => (.error e, cat2, t1 ++ t2)
  | (.error e, cat1, t1) => (.error e, cat1, t1)

/-- `guess_release(version, arch, prefix)` — the `matlab_runtime/utils.py`
copy (lines 487–517), part of the library API but NOT the copy
`impl.py` imports: resolve `"latest_installed"` by scanning the prefix
listing in reverse lexical order for a directory holding the license
sentinel, resolve `"latest"` by probing the current year, and pass
anything else through `matlab_release`. -/
def guess_release (w : World) (cat : Catalog) (version : String) :
    Except PyExc String × Catalog × List Effect :=
  if pyLower version == "latest_installed" then
    match
      match w.dirListing with
      | none => none
      | some names => (sortDesc names).find? (fun n => w.sentinel n)
    with
    | some name => (matlab_release name, cat, [])
    | none => guessReleaseLatest w cat
  else if pyLower version == "latest" then guessReleaseLatest w cat
  else (matlab_release version, cat, [])

/-- `guess_installer` as defined in `matlab_runtime_installer/utils.py`
(lines 264–279) — the copy `impl.py` actually imports.  On a catalog
miss its probe loop builds `fmt = dict(version=V, arch=A, ext=E)` and
its first iteration evaluates `TEMPLATE2.format(update=U, **fmt)`;
`TEMPLATE2` requires a `release` placeholder, so `str.format` raises
`KeyError` before any `url_exists` call — this copy can never issue a
network probe, never caches, and never reaches the
`VersionNotFoundError` at the end of the loop. -/
def guess_installer_pkg (cat : Catalog) (version arch : String) :
    Except PyExc String × Catalog × List Effect :=
  match matlab_release version with
  | .error e => (.error e, cat, [])
  | .ok release =>
    match catArch cat arch with
    | none => (.error .keyError, cat, [])
    | some entries =>
      match entries.find? (fun p => p.1 == release) with
      | some p => (.ok p.2, cat, [])
      | none => (.error .keyError, cat, [])

/-- `guess_release` as defined in `matlab_runtime_installer/utils.py`
(lines 243–261) — the copy `impl.py` actually imports.  Unlike the
`matlab_runtime` copy it has no `"latest_installed"` branch, and its
`"latest"` loop catches only `VersionNotFoundError`, so the `KeyError`
raised by `guess_installer_pkg` on a catalog miss propagates. -/
def guess_release_pkg (w : World) (cat : Catalog) (version : String) :
    Except PyExc String × Catalog × List Effect :=
  if pyLower version == "latest" then
    let yb := "R" ++ toString w.year ++ "b"
    let ya := "R" ++ toString w.year ++ "a"
    match guess_installer_pkg cat yb w.arch with
    | (.ok _, cat1, t1) => (matlab_release yb, cat1, t1)
    | (.error (.versionNotFound _), cat1, t1) =>
      match guess_installer_pkg cat1 ya w.arch with
      | (.ok _, cat2, t2) => (matlab_release ya, cat2, t1 ++ t2)
      | (.error (.versionNotFound _), cat2, t2) =>
        match catArch cat2 w.arch with
        | none => (.error .keyError, cat2, t1 ++ t2)
        | some entries =>
          match (sortDesc (entries.map (fun p => p.1))).head? with
          | some v => (matlab_release v, cat2, t1 ++ t2)
          | none => (.error .stopIteration, cat2, t1 ++ t2)
      | (.error e, cat2, t2) => (.error e, cat2, t1 ++ t2)
    | (.error e, cat1, t1) => (.error e, cat1, t1)
  else (matlab_release version, cat, [])

/-- The download / unzip / license / invoke / verify phase of `install`
(impl.py lines 91–177), entered when no pre-existing runtime stopped
the flow.  `ret` is the native installer's exit code; a non-zero code
only changes a log line (lines 152–155), while the verification step
(lines 157–170) keys solely on the sentinel file. -/
def installRun (w : World) (ret : Nat) (rel url : String)
    (t : List Effect) : Except PyExc Unit × List Effect :=
  let q1 := "Download installer from " ++ url ++ "?"
  match askW w q1 "yes" true with
  | .error e => (.error e, t ++ [.ask q1])
  | .ok _ =>
    let t := t ++ [.ask q1, .mkTmpDir, .download url]
    if !w.downloadOk then (.error .downloadError, t)
    else
      let base := urlBasename url
      let afterUnzip :
          Except PyExc (String × List Effect) :=
        if strEndsWith base ".zip" then
          let installer0 := TMPDIR ++ "/" ++ base
          let q2 := "Unzip " ++ installer0 ++ "?"
          match askW w q2 "yes" true with
          | .error e => (.error e)
          | .ok _ =>
            let name :=
              if (w.arch.toList.take 3) == ['w', 'i', 'n'] then "setup.exe"
              else "install"
            .ok (TMPDIR ++ "/" ++ name, [.ask q2, .unzip installer0])
        else .ok (TMPDIR ++ "/" ++ base, [])
      match afterUnzip with
      | .error e => (.error e, t)
      | .ok (installer, t2) =>
        let t := t ++ t2
        if !w.installerPresent then
          (.error (.fileNotFound "No installer found in archive"), t)
        else
          let q3 := "BY ENTERING YES, YOU ACCEPT THE TERMS OF THE MATLAB RUNTIME LICENSE"
          match askW w q3 "yes" true with
          | .error e => (.error e, t ++ [.ask q3])
          | .ok _ =>
            let t := t ++ [.ask q3]
            let t :=
              if (w.arch.toList.take 3) == ['m', 'a', 'c'] &&
                  pyTupleGt w.macver [10, 14] then t ++ [.clearQuarantine]
              else t
            let t := t ++ [.runInstaller installer]
            let _ := ret
            if !w.sentinelAfter rel then
              (.error (.fileNotFound "Runtime not found where it is expected."), t)
            else (.ok (), t)

/-- `install` for a single version (impl.py lines 71–177): resolve the
release and installer URL through the `matlab_runtime_installer/utils.py`
copies of `guess_release`/`guess_installer` that `impl.py` imports
(lines 22–34), honour the already-installed check with its reinstall
confirmation (default "no", not raising), then run the download/verify
phase. -/
def install (w : World) (ret : Nat) (cat : Catalog) (version : Option String) :
    Except PyExc Unit × List Effect :=
  match guess_release_pkg w cat (version.getD "latest") with
  | (.error e, _, t0) => (.error e, t0)
  | (.ok rel, cat1, t0) =>
    match guess_installer_pkg cat1 rel w.arch with
    | (.error e, _, t1) => (.error e, t0 ++ t1)
    | (.ok url, _, t1) =>
      let t := t0 ++ t1
      if w.sentinel rel then
        let q := "Runtime already exists. Reinstall?"
        match askW w q "no" false with
        | .error e => (.error e, t ++ [.ask q])
        | .ok false => (.ok (), t ++ [.ask q])
        | .ok true => installRun w ret rel url (t ++ [.ask q])
      else installRun w ret rel url t

/-- The multi-version branch of `install` (impl.py lines 66–69).  The
source builds `map(lambda x: install(x, prefix, auto_answer), version)`
and returns; Python's `map` is lazy and the iterator is discarded, so
the lambda — and hence the per-version install — never runs. -/
def installBatchDispatch (_versions : List String) :
    Except PyExc Unit × List Effect :=
  (.ok (), [])

/-- `uninstall` for a single version (impl.py lines 206–239).  For any
version other than `"all"` the source computes
`rmdir = op.join(rmdir, version)` (line 219), reading the local `rmdir`
before any assignment to it, which raises `UnboundLocalError`. -/
def uninstall (w : World) (version : Option String) :
    Except PyExc Unit × List Effect :=
  let v0 := version.getD "all"
  match (if v0 != "all" then matlab_release v0 else .ok v0) with
  | .error e => (.error e, [])
  | .ok v1 =>
    if pyLower v1 == "all" then
      let rmdir := w.baseDir
      let q := "Remove directory " ++ rmdir ++ " and its content?"
      match askW w q "yes" true with
      | .error e => (.error e, [.ask q])
      | .ok _ =>
        if (w.arch.toList.take 3) == ['w', 'i', 'n'] then
          let vers := (w.dirListing.getD []).map
            (fun n => w.baseDir ++ "/" ++ n)
          (.ok (), [.ask q] ++ vers.map (fun ver =>
            .runUninstaller (w.baseDir ++ "/" ++ ver ++ "/bin/" ++ w.arch ++
              "/Uninstall_MATLAB_Runtime.exe")))
        else (.ok (), [.ask q, .fsRemove rmdir])
    else (.error .unboundLocal, [])

/-- The multi-version branch of `uninstall` (impl.py lines 197–204):
a genuine `for` loop that calls `uninstall` per version and catches and
logs any `Exception`, so one version's failure does not stop the rest. -/
def uninstallBatch (w : World) (versions : List String) :
    Except PyExc Unit × List Effect :=
  (.ok (),
    versions.foldl
      (fun acc v =>
        match uninstall w (some v) with
        | (.ok _, t) => acc ++ t
        | (.error _, t) => acc ++ t ++ [.logFail]) [])

/-! ### Concrete hosts and inputs used by the claim theorems -/

/-- A host used to exercise the batch operations: Linux, auto-answer,
with nothing installed. -/
def wBatch : World :=
  { arch := "glnxa64", baseDir := "/usr/local/MATLAB/MATLAB_Runtime",
    year := 2024, urlExists := fun _ => false,
    sentinel := fun _ => false, sentinelAfter := fun _ => false,
    dirListing := none, autoAnswer := true, replyFor := fun _ => "",
    downloadOk := true, installerPresent := true, macver := [10] }

/-- The `url_exists` oracle used to witness the probing claim: exactly
the update-7 URL for R2025b on glnxa64 exists. -/
def c3oracle : String → Bool :=
  fun u => u == TEMPLATE2 "R2025b" "7" "glnxa64" "zip"

/-- The seeded `INSTALLERS["glnxa64"]` entry list. -/
def glnxa64Entries : List (String × String) :=
  modernEntries "glnxa64" "zip" ++ legacyEntries "glnxa64" "zip" 12 19

/-- A symlink-typed member used to exercise the extractor: attribute
word `0o120777` (symlink type, mode 777) in the upper 16 bits. -/
def mlink : Member := { name := "bin/lib.so", data := "target.txt",
                        externalAttr := 0xA1FF <<< 16 }

/-- A Linux host in a year whose releases are all cataloged, with the
R2024b runtime already installed (its sentinel present) and
auto-answer set, so the reinstall confirmation is declined. -/
def wC4w : World :=
  { arch := "glnxa64", baseDir := "/usr/local/MATLAB/MATLAB_Runtime",
    year := 2024, urlExists := fun _ => false,
    sentinel := fun r => r == "R2024b", sentinelAfter := fun _ => false,
    dirListing := none, autoAnswer := true, replyFor := fun _ => "",
    downloadOk := true, installerPresent := true, macver := [10] }

/-- A host on which nothing is installed yet and the native installer
reports exit code 0 but writes no sentinel. -/
def wC5 : World :=
  { arch := "glnxa64", baseDir := "/usr/local/MATLAB/MATLAB_Runtime",
    year := 2024, urlExists := fun _ => false,
    sentinel := fun _ => false, sentinelAfter := fun _ => false,
    dirListing := none, autoAnswer := true, replyFor := fun _ => "",
    downloadOk := true, installerPresent := true, macver := [10] }

/-! ### Helper lemmas -/

theorem probeAll_fst (oracle : String → Bool) (l : List String) :
    (probeAll oracle l).1 = l.find? oracle := by
  induction l with
  | nil => rfl
  | cons u rest ih =>
    simp only [probeAll, List.find?]
    by_cases h : oracle u = true
    · simp [h]
    · simp only [Bool.not_eq_true] at h
      simp [h, ih]

theorem probeAll_snd (oracle : String → Bool) (l : List String) :
    (probeAll oracle l).2 = (takeUpToHit oracle l).map Effect.probe := by
  induction l with
  | nil => rfl
  | cons u rest ih =>
    simp only [probeAll, takeUpToHit]
    by_cases h : oracle u = true
    · simp [h]
    · simp only [Bool.not_eq_true] at h
      simp [h, ih]

theorem guess_installer_pkg_trace (cat : Catalog) (version arch : String) :
    (guess_installer_pkg cat version arch).2.2 = [] := by
  unfold guess_installer_pkg
  split
  · rfl
  · split
    · rfl
    · split
      · rfl
      · rfl

theorem guess_release_pkg_trace (w : World) (cat : Catalog) (v : String) :
    (guess_release_pkg w cat v).2.2 = [] := by
  unfold guess_release_pkg
  dsimp only
  split
  · split
    · next heq =>
      have h := guess_installer_pkg_trace cat ("R" ++ toString w.year ++ "b")
        w.arch
      rw [heq] at h
      exact h
    · next cat1 t1 heq =>
      have h1 := guess_installer_pkg_trace cat ("R" ++ toString w.year ++ "b")
        w.arch
      rw [heq] at h1
      split
      · next heq2 =>
        have h2 := guess_installer_pkg_trace cat1
          ("R" ++ toString w.year ++ "a") w.arch
        rw [heq2] at h2
        simp_all
      · next cat2 t2 heq2 =>
        have h2 := guess_installer_pkg_trace cat1
          ("R" ++ toString w.year ++ "a") w.arch
        rw [heq2] at h2
        split
        · simp_all
        · split
          · simp_all
          · simp_all
      · next e cat2 t2 _ heq2 =>
        have h2 := guess_installer_pkg_trace cat1
          ("R" ++ toString w.year ++ "a") w.arch
        rw [heq2] at h2
        simp_all
    · next e cat1 t1 _ heq =>
      have h1 := guess_installer_pkg_trace cat ("R" ++ toString w.year ++ "b")
        w.arch
      rw [heq] at h1
      exact h1
  · rfl

theorem fsGet_set_self (fs : FS) (p : String) (e : FsEntry) :
    fsGet (fsSet fs p e) p = some e := by
  simp [fsGet, fsSet, List.find?]

theorem fsMove_of_get {fs : FS} {src : String} {e : FsEntry}
    (h : fsGet fs src = some e) {dst : String} :
    fsMove fs src dst = fsSet (fsDel fs src) dst e := by
  simp [fsMove, h]

theorem fsChmod_of_get {fs : FS} {p d : String} {mode0 : Nat}
    (h : fsGet fs p = some (.file d mode0)) {mode : Nat} :
    fsChmod fs p mode = fsSet fs p (.file d mode) := by
  simp [fsChmod, h]

/-! ### Claim theorems -/

/-- C1: the claim states that for releases at or after the
scheme-unification cutoff, `matlab_release (matlab_version R) = R`.
On the code this fails at the cutoff itself: `matlab_version "R2023b"`
is `"23.2"`, and `matlab_release "23.2"` indexes the letter table at
`int("2") + 1 = 3`, producing `"R2023d"`, not `"R2023b"` — contradicting
`matlab_release`'s own docstring example (24.2 ↦ R2024b). -/
theorem release_roundtrip_off_by_two :
    (matlab_version "R2023b").bind matlab_release = .ok "R2023d" ∧
    (Except.ok "R2023d" : Except PyExc String) ≠ .ok "R2023b" := by decide

/-- C8: the claim states that every pre-seeded catalog entry
instantiates its template with its own release — including the
`glnx86` entry for `"R2012a"`.  The code seeds that entry with the
stale loop variable `R` (left at `"R2018b"` by the preceding `glnxa64`
loop), so the stored URL is the `R2018b` legacy URL, not the `R2012a`
one. -/
theorem installers_glnx86_stale_release :
    catLookup INSTALLERS "glnx86" "R2012a"
      = some (TEMPLATE1 "R2018b" "glnx86" "zip") ∧
    TEMPLATE1 "R2018b" "glnx86" "zip" ≠ TEMPLATE1 "R2012a" "glnx86" "zip" := by
  decide

/-- C9: for every legacy dot-version in the static table, converting to
the release and back yields the dot-version again — the round-trip goes
through the table (which resolves service-pack buckets such as
`"8.5.1"`/`"R2015aSP1"` exactly), not through the formula. -/
theorem version_table_roundtrip (p : String × String)
    (hp : p ∈ VERSION_TO_RELEASE) :
    (matlab_release p.1).bind matlab_version = .ok p.1 :=
  (by decide :
    ∀ q ∈ VERSION_TO_RELEASE,
      (matlab_release q.1).bind matlab_version = .ok q.1) p hp

theorem version_table_roundtrip_witness :
    ("8.5.1", "R2015aSP1") ∈ VERSION_TO_RELEASE ∧
    (matlab_release "8.5.1").bind matlab_version = .ok "8.5.1" :=
  ⟨by decide, version_table_roundtrip ("8.5.1", "R2015aSP1") (by decide)⟩

/-- C10 counterexample: the claim mandates a `TypeError` for every
non-empty reply, but the source strips the reply before the emptiness
test (`input(...).strip()`, utils.py line 46), so the non-empty
whitespace reply `" "` with default `"yes"` returns normally
(`True`) instead of raising. -/
theorem askuser_whitespace_reply_counterexample :
    (" " : String) ≠ "" ∧
    askuser "Reinstall?" "yes" false " " false = .ok true := by decide

/-- C10 (amended: the emptiness boundary is the reply after stripping
whitespace): with `auto_answer=False`, `askuser` returns normally only
when the default is `"yes"` and the typed reply strips to the empty
string, in which case it returns `True`; in every other case — any
reply that is non-empty after stripping, or any reply at all when the
default is `"no"` — the expression `yesno[:1]` is evaluated on a
`bool` and raises `TypeError`, so no confirmation gate can be answered
interactively with an explicit yes or no. -/
theorem askuser_interactive_typeerror (question default reply : String)
    (raiseIfNo : Bool) :
    (askuser question default false reply raiseIfNo = .ok true ↔
      (default = "yes" ∧ pyStrip reply = "")) ∧
    (¬(default = "yes" ∧ pyStrip reply = "") →
      askuser question default false reply raiseIfNo = .error .typeError) := by
  by_cases hd : default = "yes" <;> by_cases hr : pyStrip reply = "" <;>
    simp [askuser, hd, hr]

theorem askuser_interactive_typeerror_witness :
    ¬("no" = "yes" ∧ pyStrip "yes" = "") ∧
    askuser "Reinstall?" "no" false "yes" true = .error .typeError :=
  ⟨by decide,
   (askuser_interactive_typeerror "Reinstall?" "no" "yes" true).2 (by decide)⟩

/-- C2: the claim states that a collection argument makes install and
uninstall process every version, catching and logging per-version
failures.  `uninstall`'s loop does exactly that (here: both versions
are attempted, each failure is caught and logged, and the batch still
returns normally), but `install`'s collection branch builds a lazy
`map(...)` whose iterator is discarded, so no version is ever
processed — the batch returns with an empty effect trace. -/
theorem batch_install_never_runs :
    installBatchDispatch ["R2024a", "R2024b"] = (.ok (), []) ∧
    (uninstallBatch wBatch ["R2024a", "R2024b"]).1 = .ok () ∧
    (uninstallBatch wBatch ["R2024a", "R2024b"]).2 = [.logFail, .logFail] := by
  decide

/-- C3: with no catalog entry for (arch, release), `guess_installer`
issues `url_exists` probes over the modern-template URLs for update
counters 10 down to 0 in that order, stops at the first URL that
exists, caches it into the catalog under (arch, release) and returns
it; when no probed URL exists it raises `VersionNotFoundError` naming
the version and the architecture. -/
theorem guess_installer_probing
    (oracle : String → Bool) (cat : Catalog)
    (version arch release : String) (entries : List (String × String))
    (hrel : matlab_release version = .ok release)
    (harch : catArch cat arch = some entries)
    (hmiss : entries.find? (fun p => p.1 == release) = none) :
    (guess_installer oracle cat version arch).2.2
      = (takeUpToHit oracle (probeUrls release arch)).map Effect.probe ∧
    probeUrls release arch
      = DESC_UPDATES.map (fun u => TEMPLATE2 release (toString u) arch "zip") ∧
    (∀ u, (probeUrls release arch).find? oracle = some u →
      (guess_installer oracle cat version arch).1 = .ok u ∧
      (guess_installer oracle cat version arch).2.1
        = catInsert cat arch release u) ∧
    ((probeUrls release arch).find? oracle = none →
      (guess_installer oracle cat version arch).1
        = .error (.versionNotFound
            ("No " ++ version ++ " installer found for Win" ++ arch)) ∧
      (guess_installer oracle cat version arch).2.1 = cat) := by
  have hurls : probeUrls release arch
      = DESC_UPDATES.map (fun u => TEMPLATE2 release (toString u) arch "zip") := by
    have h11 : (List.range 11).reverse = DESC_UPDATES := by decide
    rw [probeUrls, h11]
  simp only [guess_installer, hrel, harch, hmiss]
  rcases hpa : probeAll oracle (probeUrls release arch) with ⟨res, tr⟩
  have hres : (probeUrls release arch).find? oracle = res := by
    rw [← probeAll_fst oracle (probeUrls release arch), hpa]
  have htr : tr = (takeUpToHit oracle (probeUrls release arch)).map
      Effect.probe := by
    rw [← probeAll_snd oracle (probeUrls release arch), hpa]
  cases res with
  | some u0 =>
    refine ⟨htr, hurls, ?_, ?_⟩
    · intro u hu
      rw [hres] at hu
      cases hu
      exact ⟨rfl, rfl⟩
    · intro hnone
      rw [hres] at hnone
      cases hnone
  | none =>
    refine ⟨htr, hurls, ?_, ?_⟩
    · intro u hu
      rw [hres] at hu
      cases hu
    · intro _
      exact ⟨rfl, rfl⟩

theorem guess_installer_probing_witness :
    matlab_release "R2025b" = .ok "R2025b" ∧
    catArch INSTALLERS "glnxa64" = some glnxa64Entries ∧
    glnxa64Entries.find? (fun p => p.1 == "R2025b") = none ∧
    ((guess_installer c3oracle INSTALLERS "R2025b" "glnxa64").2.2
      = (takeUpToHit c3oracle (probeUrls "R2025b" "glnxa64")).map
          Effect.probe ∧
    probeUrls "R2025b" "glnxa64"
      = DESC_UPDATES.map
          (fun u => TEMPLATE2 "R2025b" (toString u) "glnxa64" "zip") ∧
    (∀ u, (probeUrls "R2025b" "glnxa64").find? c3oracle = some u →
      (guess_installer c3oracle INSTALLERS "R2025b" "glnxa64").1 = .ok u ∧
      (guess_installer c3oracle INSTALLERS "R2025b" "glnxa64").2.1
        = catInsert INSTALLERS "glnxa64" "R2025b" u) ∧
    ((probeUrls "R2025b" "glnxa64").find? c3oracle = none →
      (guess_installer c3oracle INSTALLERS "R2025b" "glnxa64").1
        = .error (.versionNotFound
            ("No " ++ "R2025b" ++ " installer found for Win" ++ "glnxa64")) ∧
      (guess_installer c3oracle INSTALLERS "R2025b" "glnxa64").2.1
        = INSTALLERS)) :=
  ⟨by decide, by decide, by decide,
   guess_installer_probing c3oracle INSTALLERS "R2025b" "glnxa64" "R2025b"
     glnxa64Entries (by decide) (by decide) (by decide)⟩

/-- Digest selection for a three-entry digest table with the keys
15/14/13 (the shape of both `_HOMEBREW_DIGESTS` tables): the code's
min/max fallback picks the exact entry, else the nearest entry below,
else the nearest entry above, and always succeeds. -/
theorem pick3 (a b c : String) (v : Nat) :
    ∃ d, selectDigest [(15, a), (14, b), (13, c)] v = .ok d ∧
      nearestDigestSpec [(15, a), (14, b), (13, c)] v = some d := by
  by_cases h15 : v = 15
  · subst h15
    exact ⟨a, rfl, rfl⟩
  · by_cases h14 : v = 14
    · subst h14
      exact ⟨b, rfl, rfl⟩
    · by_cases h13 : v = 13
      · subst h13
        exact ⟨c, rfl, rfl⟩
      · have e15 : (15 == v) = false := beq_eq_false_iff_ne.mpr (by omega)
        have e14 : (14 == v) = false := beq_eq_false_iff_ne.mpr (by omega)
        have e13 : (13 == v) = false := beq_eq_false_iff_ne.mpr (by omega)
        by_cases hlt : v < 13
        · have f15 : decide (15 < v) = false := decide_eq_false (by omega)
          have f14 : decide (14 < v) = false := decide_eq_false (by omega)
          have f13 : decide (13 < v) = false := decide_eq_false (by omega)
          have g15 : decide (v < 15) = true := decide_eq_true (by omega)
          have g14 : decide (v < 14) = true := decide_eq_true (by omega)
          have g13 : decide (v < 13) = true := decide_eq_true (by omega)
          refine ⟨c, ?_, ?_⟩
          · simp [selectDigest, keyMin, keyMax, digLookup, List.find?,
              e15, e14, e13, hlt]
          · simp [nearestDigestSpec, bestBelow, bestAbove, List.find?,
              List.filter, e15, e14, e13, f15, f14, f13, g15, g14, g13]
        · have hgt : 15 < v := by omega
          have f15 : decide (15 < v) = true := decide_eq_true (by omega)
          have f14 : decide (14 < v) = true := decide_eq_true (by omega)
          have f13 : decide (13 < v) = true := decide_eq_true (by omega)
          have g15 : decide (v < 15) = false := decide_eq_false (by omega)
          have g14 : decide (v < 14) = false := decide_eq_false (by omega)
          have g13 : decide (v < 13) = false := decide_eq_false (by omega)
          refine ⟨a, ?_, ?_⟩
          · simp [selectDigest, keyMin, keyMax, digLookup, List.find?,
              e15, e14, e13, hlt, hgt]
          · simp [nearestDigestSpec, bestBelow, bestAbove, List.find?,
              List.filter, e15, e14, e13, f15, f14, f13, g15, g14, g13]

/-- C7: for every host OS version bucket, `download_bottle`'s digest
selection (for both mac architectures of the `_HOMEBREW_DIGESTS`
table) succeeds and returns the exact digest when present, else the
nearest digest below the bucket, else the nearest digest above it. -/
theorem download_bottle_nearest_digest (v : Nat) :
    (∃ d, selectDigest digesters_maca64 v = .ok d ∧
      nearestDigestSpec digesters_maca64 v = some d) ∧
    (∃ d, selectDigest digesters_maci64 v = .ok d ∧
      nearestDigestSpec digesters_maci64 v = some d) :=
  ⟨pick3 _ _ _ v, pick3 _ _ _ v⟩

theorem download_bottle_nearest_digest_witness :
    (∃ d, selectDigest digesters_maca64 12 = .ok d ∧
      nearestDigestSpec digesters_maca64 12 = some d) ∧
    (∃ d, selectDigest digesters_maci64 12 = .ok d ∧
      nearestDigestSpec digesters_maci64 12 = some d) :=
  download_bottle_nearest_digest 12

/-- C6 counterexample input: the claim quantifies over any platform
where `os.symlink` exists, but the `matlab_runtime` extractor also
requires `platform.system() != "Windows"`; on Windows (where Python
does provide `os.symlink`) the symlink branch is skipped even when
symlink creation would succeed, leaving a regular file whose content
is the stored target text. -/
theorem extract_windows_symlink_counterexample :
    S_ISLNK (mlink.externalAttr >>> 16) = true ∧
    Platform.hasSymlink ⟨"Windows", true⟩ = true ∧
    fsGet (extract_member ⟨"Windows", true⟩ true "dest" [] mlink)
        ("dest/" ++ mlink.name)
      = some (.file "target.txt" 0xA1FF) := by decide

/-- C6 (amended to the extractor's actual platform guard): for a
symlink-typed member extracted on a non-Windows platform where
`os.symlink` exists, a successful `os.symlink` leaves an actual
symbolic link to the member's stored target text at the target path
(never a regular file), a failed one (`OSError`, caught) leaves the
previously extracted regular file restored at the target path with the
attribute word applied, and extraction proceeds to the remaining
members in both cases. -/
theorem extract_symlink_member (plat : Platform) (symlinkOk : Bool)
    (dest : String) (fs : FS) (m : Member) (rest : List Member)
    (hlnk : S_ISLNK (m.externalAttr >>> 16) = true)
    (hwin : plat.system ≠ "Windows")
    (hsym : plat.hasSymlink = true) :
    (symlinkOk = true →
      fsGet (extract_member plat symlinkOk dest fs m) (dest ++ "/" ++ m.name)
        = some (.symlink m.data)) ∧
    (symlinkOk = false →
      fsGet (extract_member plat symlinkOk dest fs m) (dest ++ "/" ++ m.name)
        = some (.file m.data (m.externalAttr >>> 16))) ∧
    extractAll plat symlinkOk dest fs (m :: rest)
      = extractAll plat symlinkOk dest
          (extract_member plat symlinkOk dest fs m) rest := by
  have hbne : (plat.system != "Windows") = true := bne_iff_ne.mpr hwin
  have hattr : (m.externalAttr >>> 16 != 0) = true := by
    rw [bne_iff_ne]
    intro h0
    rw [h0] at hlnk
    exact absurd hlnk (by decide)
  refine ⟨?_, ?_, rfl⟩
  · intro hok
    subst hok
    simp only [extract_member, hbne, hlnk, hsym, Bool.and_self,
      Bool.true_and, Bool.and_true, if_true, ite_true]
    exact fsGet_set_self _ _ _
  · intro hko
    subst hko
    simp only [extract_member, hbne, hlnk, hsym, Bool.and_self,
      Bool.true_and, Bool.and_true, if_true, ite_true, if_false,
      ite_false, hattr]
    rw [fsMove_of_get (fsGet_set_self _ _ _)]
    rw [fsMove_of_get (fsGet_set_self _ _ _)]
    rw [fsChmod_of_get (fsGet_set_self _ _ _)]
    exact fsGet_set_self _ _ _

theorem extract_symlink_member_witness :
    S_ISLNK (mlink.externalAttr >>> 16) = true ∧
    ("Linux" : String) ≠ "Windows" ∧
    Platform.hasSymlink ⟨"Linux", true⟩ = true ∧
    ((false = true →
      fsGet (extract_member ⟨"Linux", true⟩ false "dest" [] mlink)
          ("dest/" ++ mlink.name) = some (.symlink mlink.data)) ∧
    (false = false →
      fsGet (extract_member ⟨"Linux", true⟩ false "dest" [] mlink)
          ("dest/" ++ mlink.name)
        = some (.file mlink.data (mlink.externalAttr >>> 16))) ∧
    extractAll ⟨"Linux", true⟩ false "dest" [] [mlink]
      = extractAll ⟨"Linux", true⟩ false "dest"
          (extract_member ⟨"Linux", true⟩ false "dest" [] mlink) []) :=
  ⟨by decide, by decide, by decide,
   extract_symlink_member ⟨"Linux", true⟩ false "dest" [] mlink []
     (by decide) (by decide) (by decide)⟩

/-- C4: if the resolved release already has its license-acceptance
sentinel under the prefix and the reinstall confirmation is declined
(auto-answered, default "no"), `install` returns successfully having
performed zero network calls and zero filesystem-mutating calls: the
resolution functions `impl.py` imports can only succeed via catalog
hits — their probe loop raises `KeyError` at the broken
`TEMPLATE2.format` call before any `url_exists` — so a run that
reaches the declined gate has an effect trace of exactly the
confirmation question. -/
theorem install_decline_noop
    (w : World) (ret : Nat) (cat cat1 cat2 : Catalog)
    (version : Option String) (rel url : String) (t0 t1 : List Effect)
    (hauto : w.autoAnswer = true)
    (hres : guess_release_pkg w cat (version.getD "latest")
      = (.ok rel, cat1, t0))
    (hurl : guess_installer_pkg cat1 rel w.arch = (.ok url, cat2, t1))
    (hsent : w.sentinel rel = true) :
    (install w ret cat version).1 = .ok () ∧
    (install w ret cat version).2.filter isNetworkEff = [] ∧
    (install w ret cat version).2.filter isMutationEff = [] := by
  have ht0 : t0 = [] := by
    have h := guess_release_pkg_trace w cat (version.getD "latest")
    rw [hres] at h
    exact h
  have ht1 : t1 = [] := by
    have h := guess_installer_pkg_trace cat1 rel w.arch
    rw [hurl] at h
    exact h
  subst ht0
  subst ht1
  have hinst : install w ret cat version
      = (.ok (), [] ++ [] ++ [.ask "Runtime already exists. Reinstall?"]) := by
    simp only [install, hres, hurl, hsent, if_true, askW, askuser, hauto]
    rfl
  rw [hinst]
  exact ⟨rfl, rfl, rfl⟩

theorem install_decline_noop_witness :
    wC4w.autoAnswer = true ∧
    guess_release_pkg wC4w INSTALLERS ((some "R2024b").getD "latest")
      = (.ok "R2024b", INSTALLERS, []) ∧
    guess_installer_pkg INSTALLERS "R2024b" wC4w.arch
      = (.ok (TEMPLATE2 "R2024b" "5" "glnxa64" "zip"), INSTALLERS, []) ∧
    wC4w.sentinel "R2024b" = true ∧
    ((install wC4w 0 INSTALLERS (some "R2024b")).1 = .ok () ∧
     (install wC4w 0 INSTALLERS (some "R2024b")).2.filter isNetworkEff
       = [] ∧
     (install wC4w 0 INSTALLERS (some "R2024b")).2.filter isMutationEff
       = []) :=
  ⟨rfl, by decide, by decide, rfl,
   install_decline_noop wC4w 0 INSTALLERS INSTALLERS INSTALLERS
     (some "R2024b") "R2024b" (TEMPLATE2 "R2024b" "5" "glnxa64" "zip") [] []
     rfl (by decide) (by decide) rfl⟩

theorem installRun_verify (w : World) (ret : Nat) (rel url : String)
    (t : List Effect)
    (hauto : w.autoAnswer = true) (hdl : w.downloadOk = true)
    (hip : w.installerPresent = true)
    (hafter : w.sentinelAfter rel = false) :
    (installRun w ret rel url t).1
      = .error (.fileNotFound "Runtime not found where it is expected.") := by
  cases hz : strEndsWith (urlBasename url) ".zip" <;>
    cases hm : ((w.arch.toList.take 3) == ['m', 'a', 'c'] &&
      pyTupleGt w.macver [10, 14]) <;>
    cases hw : ((w.arch.toList.take 3) == ['w', 'i', 'n']) <;>
    simp [installRun, askW, askuser, hauto, hdl, hip, hafter, hz, hm, hw]

/-- C5: after the native installer is invoked, `install` fails with
`FileNotFoundError` whenever the license sentinel is absent under the
release directory — for every exit code `ret`, including zero; the
exit code only affects a log line. -/
theorem install_verify_requires_sentinel
    (w : World) (ret : Nat) (cat cat1 cat2 : Catalog)
    (version : Option String) (rel url : String) (t0 t1 : List Effect)
    (hres : guess_release_pkg w cat (version.getD "latest")
      = (.ok rel, cat1, t0))
    (hurl : guess_installer_pkg cat1 rel w.arch = (.ok url, cat2, t1))
    (hsent : w.sentinel rel = false)
    (hauto : w.autoAnswer = true) (hdl : w.downloadOk = true)
    (hip : w.installerPresent = true)
    (hafter : w.sentinelAfter rel = false) :
    (install w ret cat version).1
      = .error (.fileNotFound "Runtime not found where it is expected.") := by
  simp only [install, hres, hurl, hsent, Bool.false_eq_true, if_false,
    ite_false]
  exact installRun_verify w ret rel url _ hauto hdl hip hafter

theorem install_verify_requires_sentinel_witness :
    guess_release_pkg wC5 INSTALLERS ((some "R2024b").getD "latest")
      = (.ok "R2024b", INSTALLERS, []) ∧
    guess_installer_pkg INSTALLERS "R2024b" wC5.arch
      = (.ok (TEMPLATE2 "R2024b" "5" "glnxa64" "zip"), INSTALLERS, []) ∧
    wC5.sentinel "R2024b" = false ∧
    wC5.autoAnswer = true ∧
    wC5.downloadOk = true ∧
    wC5.installerPresent = true ∧
    wC5.sentinelAfter "R2024b" = false ∧
    (install wC5 0 INSTALLERS (some "R2024b")).1
      = .error (.fileNotFound "Runtime not found where it is expected.") :=
  ⟨by decide, by decide, rfl, rfl, rfl, rfl, rfl,
   install_verify_requires_sentinel wC5 0 INSTALLERS INSTALLERS INSTALLERS
     (some "R2024b") "R2024b" (TEMPLATE2 "R2024b" "5" "glnxa64" "zip") [] []
     (by decide) (by decide) rfl rfl rfl rfl rfl⟩

end MatlabRuntime
